import Mathlib

/-!
# go_mongo_client: the four item handlers of `database.go`

A shallow embedding of `createItem`, `getItems`, `updateItem` and `deleteItem`
(`src/database.go`).  A handler is a function from the request (decoded path
parameter, request body) and the remote collection (an oracle giving the result
of each driver call) to an `Exchange`: the final state of the response writer,
the lines written to the operational log and the driver calls issued, in order.

The request body is taken after tokenisation: either no JSON value could be
read from it, or it starts with a JSON value (a tree).  Number literals are
represented by the `float64` that `strconv.ParseFloat` gives for them, a
`float64` by its IEEE-754 bit pattern.
-/

namespace GoMongoClient

/-! ## Data model -/

/-- Go `float64`, as its IEEE-754 binary64 bit pattern (read modulo `2^64`). -/
structure Float64 where
  bits : Nat
deriving DecidableEq

/-- Go `x == 0` on a `float64`: true of `+0` (all bits clear) and of `-0`
(only the sign bit set), false of everything else (NaN included). -/
def Float64.eqZero (x : Float64) : Bool :=
  x.bits % 2 ^ 64 == 0 || x.bits % 2 ^ 64 == 2 ^ 63

/-- Source `type Item struct` (database.go:17-21). -/
structure Item where
  ID : String
  Name : String
  Price : Float64
deriving DecidableEq

/-- Zero value of `Item`, what `var newItem Item` declares. -/
def Item.zero : Item := { ID := "", Name := "", Price := { bits := 0 } }

/-- A Go slice: `none` is the nil slice, `some xs` a non-nil slice holding `xs`. -/
abbrev Slice (α : Type) := Option (List α)

/-! ## JSON request bodies and `Decode` into an `Item` -/

/-- A JSON value.  A number carries the result of `strconv.ParseFloat(lit, 64)`
on its literal: `none` when the literal is out of the `float64` range. -/
inductive JSON where
  | null
  | bool (b : Bool)
  | num (f : Option Float64)
  | str (s : String)
  | arr (xs : List JSON)
  | obj (kvs : List (String × JSON))

/-- Errors of `Decoder.Decode`. -/
inductive DecodeError where
  | malformed
  | unmarshalType (field : String)
deriving DecidableEq

/-- ASCII case folding of an object key. -/
def foldKey (key : String) : List Char := key.data.map Char.toUpper

/-- Field selection of `encoding/json` for the tags `json:"id"`, `json:"name"`,
`json:"price"`: an exact match, else a case-insensitive one.  None of the three
names holds a `k` or an `s`, the only ASCII letters with a non-ASCII case
variant, so the folding is the ASCII one. -/
def keyIs (field key : String) : Bool := foldKey key == foldKey field

/-- Storing a JSON value into a `string` field: a string is stored, `null` is a
no-op, every other value is an `UnmarshalTypeError`. -/
def storeString (field : String) (old : String) : JSON → String × Option DecodeError
  | JSON.str s => (s, none)
  | JSON.null => (old, none)
  | _ => (old, some (DecodeError.unmarshalType field))

/-- Storing a JSON value into a `float64` field: a number in range is stored,
`null` is a no-op, every other value is an `UnmarshalTypeError`. -/
def storeFloat (field : String) (old : Float64) : JSON → Float64 × Option DecodeError
  | JSON.num (some f) => (f, none)
  | JSON.null => (old, none)
  | _ => (old, some (DecodeError.unmarshalType field))

/-- The decoder keeps the first error it meets and goes on. -/
def saveError (saved new : Option DecodeError) : Option DecodeError :=
  match saved with
  | some e => some e
  | none => new

/-- One member of the body object stored into the item; unknown keys are skipped. -/
def storeMember (st : Item × Option DecodeError) (kv : String × JSON) :
    Item × Option DecodeError :=
  if keyIs "id" kv.1 then
    let r := storeString "id" st.1.ID kv.2
    ({ st.1 with ID := r.1 }, saveError st.2 r.2)
  else if keyIs "name" kv.1 then
    let r := storeString "name" st.1.Name kv.2
    ({ st.1 with Name := r.1 }, saveError st.2 r.2)
  else if keyIs "price" kv.1 then
    let r := storeFloat "price" st.1.Price kv.2
    ({ st.1 with Price := r.1 }, saveError st.2 r.2)
  else st

/-- Model of `json.NewDecoder(r.Body).Decode(&item)`: `body` is `none` when no JSON
value can be read (empty or malformed input).  An object fills the fields member
by member, `null` leaves the item as it is, any other value is a type error.
Returns the item as left by the decoder and the error. -/
def Decode (body : Option JSON) (item : Item) : Item × Option DecodeError :=
  match body with
  | none => (item, some DecodeError.malformed)
  | some (JSON.obj kvs) => kvs.foldl storeMember (item, none)
  | some JSON.null => (item, none)
  | some _ => (item, some (DecodeError.unmarshalType "Item"))

/-! ## BSON documents sent to the driver -/

/-- BSON values occurring in the documents this program builds. -/
inductive BValue where
  | string (s : String)
  | double (f : Float64)
deriving DecidableEq

/-- A BSON document: its elements in order. -/
abbrev BDoc := List (String × BValue)

/-- BSON encoding of an `Item` per its tags `bson:"_id,omitempty"`,
`bson:"name,omitempty"`, `bson:"price,omitempty"`: a field is left out when it is
empty (a string of length 0, a float equal to 0). -/
def marshalItem (it : Item) : BDoc :=
  (if it.ID = "" then [] else [("_id", BValue.string it.ID)]) ++
  (if it.Name = "" then [] else [("name", BValue.string it.Name)]) ++
  (if it.Price.eqZero then [] else [("price", BValue.double it.Price)])

/-- Source `bson.M{"_id": id}`. -/
def idFilter (id : String) : BDoc := [("_id", BValue.string id)]

/-- Source `bson.M{"$set": updatedItem}`: one operator with its document. -/
def setUpdate (updatedItem : Item) : List (String × BDoc) :=
  [("$set", marshalItem updatedItem)]

/-- Keys of a document. -/
def BDoc.keys (d : BDoc) : List String := d.map Prod.fst

/-! ## The remote collection -/

/-- A driver `primitive.ObjectID`: twelve bytes. -/
structure ObjectID where
  bytes : List Nat
deriving DecidableEq

/-- The `InsertedID` of an insert result: the `_id` of the document when it has
one (here a string), else the ObjectID the driver generated. -/
inductive InsertedID where
  | objectID (id : ObjectID)
  | string (s : String)
deriving DecidableEq

/-- Driver `mongo.UpdateResult` (counts are `int64`). -/
structure UpdateResult where
  MatchedCount : Int
  ModifiedCount : Int
  UpsertedCount : Int
deriving DecidableEq

/-- Driver `mongo.DeleteResult`. -/
structure DeleteResult where
  DeletedCount : Int
deriving DecidableEq

/-- A cursor over the result of a find: the documents it will yield decoded as
items, or the error met while iterating. -/
structure Cursor where
  docs : Except String (List Item)

/-- The collection handle: the outcome of each driver call on the given
arguments, an error (its message) or a result.  Timeouts of the five-second
context are errors of the call. -/
structure Collection where
  InsertOne : BDoc → Except String InsertedID
  Find : BDoc → Except String Cursor
  UpdateOne : BDoc → List (String × BDoc) → Except String UpdateResult
  DeleteOne : BDoc → Except String DeleteResult

/-- Driver `Cursor.All(ctx, &results)`: the documents are written into the slice
from index 0 and the slice is cut to their number, so a nil slice stays nil when
the cursor yields nothing. -/
def Cursor.All (c : Cursor) (results : Slice Item) : Except String (Slice Item) :=
  match c.docs with
  | Except.error e => Except.error e
  | Except.ok [] => Except.ok (results.map fun _ => [])
  | Except.ok (d :: ds) => Except.ok (some (d :: ds))

/-- A driver call as issued by a handler. -/
inductive Call where
  | InsertOne (doc : BDoc)
  | Find (filter : BDoc)
  | All
  | UpdateOne (filter : BDoc) (update : List (String × BDoc))
  | DeleteOne (filter : BDoc)
deriving DecidableEq

/-! ## The response writer -/

/-- State of an `http.ResponseWriter`: the status code once the header is
written, and the bytes of the body.  Header fields are not modelled. -/
structure ResponseWriter where
  status : Option Nat
  body : String
deriving DecidableEq

/-- A fresh writer: nothing written. -/
def ResponseWriter.fresh : ResponseWriter := { status := none, body := "" }

/-- Model of `w.WriteHeader(code)`: only the first call takes effect. -/
def ResponseWriter.WriteHeader (w : ResponseWriter) (code : Nat) : ResponseWriter :=
  match w.status with
  | some _ => w
  | none => { w with status := some code }

/-- Model of `w.Write(data)`: writes the header with 200 if none was written. -/
def ResponseWriter.Write (w : ResponseWriter) (data : String) : ResponseWriter :=
  let w1 := w.WriteHeader 200
  { w1 with body := w1.body ++ data }

/-- The status the client receives: 200 when the handler wrote nothing. -/
def ResponseWriter.statusCode (w : ResponseWriter) : Nat := w.status.getD 200

/-- Model of `http.Error(w, msg, code)`: writes the header with `code`, then the
message and a newline. -/
def httpError (w : ResponseWriter) (msg : String) (code : Nat) : ResponseWriter :=
  (w.WriteHeader code).Write (msg ++ "\n")

/-- Source `http.StatusOK`. -/
abbrev StatusOK : Nat := 200
/-- Source `http.StatusCreated`. -/
abbrev StatusCreated : Nat := 201
/-- Source `http.StatusBadRequest`. -/
abbrev StatusBadRequest : Nat := 400
/-- Source `http.StatusNotFound`. -/
abbrev StatusNotFound : Nat := 404
/-- Source `http.StatusInternalServerError`. -/
abbrev StatusInternalServerError : Nat := 500

/-! ## JSON encoding of responses -/

/-- The parts of `encoding/json` output that are taken as given: the string
literal of a Go string (quoting and escaping) and the object of an `Item`
(which fails on a NaN or infinite price). -/
structure JSONLib where
  marshalString : String → String
  marshalItemJSON : Item → Except String String

/-- JSON encoding of an `int64`: its decimal digits, with a minus sign when negative. -/
def marshalInt64 (n : Int) : String := toString n

/-- Lower-case hexadecimal digit. -/
def hexDigit (n : Nat) : Char := "0123456789abcdef".data.getD (n % 16) '0'

/-- Driver `ObjectID.Hex()`. -/
def ObjectID.Hex (id : ObjectID) : String :=
  String.mk (id.bytes.flatMap fun b => [hexDigit (b % 256 / 16), hexDigit (b % 16)])

/-- JSON encoding of an inserted id: an ObjectID marshals as the string of its
hex digits, a string as its JSON literal. -/
def marshalInsertedID (lib : JSONLib) : InsertedID → String
  | InsertedID.objectID id => "\"" ++ id.Hex ++ "\""
  | InsertedID.string s => lib.marshalString s

/-- JSON encoding of the elements of a slice, in order. -/
def marshalElems (lib : JSONLib) : List Item → Except String (List String)
  | [] => Except.ok []
  | it :: rest =>
    match lib.marshalItemJSON it with
    | Except.error e => Except.error e
    | Except.ok s =>
      match marshalElems lib rest with
      | Except.error e => Except.error e
      | Except.ok ss => Except.ok (s :: ss)

/-- JSON encoding of a `[]Item`: a nil slice encodes as `null`, any other slice
as the array of its elements. -/
def marshalItems (lib : JSONLib) : Slice Item → Except String String
  | none => Except.ok "null"
  | some xs =>
    match marshalElems lib xs with
    | Except.error e => Except.error e
    | Except.ok ss => Except.ok ("[" ++ ",".intercalate ss ++ "]")

/-- Model of `json.NewEncoder(w).Encode(v)` given the encoding of `v`: on success
the encoding and a newline are written, on failure nothing is written (the
handlers drop the returned error). -/
def Encode (w : ResponseWriter) (encoding : Except String String) : ResponseWriter :=
  match encoding with
  | Except.error _ => w
  | Except.ok s => w.Write (s ++ "\n")

/-! ## The handlers -/

/-- What running a handler on one request produced. -/
structure Exchange where
  w : ResponseWriter
  log : List String
  calls : List Call

/-- Source `createItem` (database.go:55-75). -/
def createItem (lib : JSONLib) (collection : Collection) (body : Option JSON) : Exchange :=
  let w := ResponseWriter.fresh
  let (newItem, err) := Decode body Item.zero
  match err with
  | some _ =>
    { w := httpError w "Invalid request body" StatusBadRequest, log := [], calls := [] }
  | none =>
    let doc := marshalItem newItem
    match collection.InsertOne doc with
    | Except.error e =>
      { w := httpError w "Failed to create item" StatusInternalServerError,
        log := [e], calls := [Call.InsertOne doc] }
    | Except.ok insertedID =>
      let w1 := w.WriteHeader StatusCreated
      { w := Encode w1 (Except.ok (marshalInsertedID lib insertedID)),
        log := [], calls := [Call.InsertOne doc] }

/-- Source `getItems` (database.go:77-99). -/
def getItems (lib : JSONLib) (collection : Collection) : Exchange :=
  let w := ResponseWriter.fresh
  let items : Slice Item := none
  match collection.Find [] with
  | Except.error e =>
    { w := httpError w "Failed to fetch items" StatusInternalServerError,
      log := [e], calls := [Call.Find []] }
  | Except.ok cursor =>
    match cursor.All items with
    | Except.error e =>
      { w := httpError w "Failed to fetch items" StatusInternalServerError,
        log := [e], calls := [Call.Find [], Call.All] }
    | Except.ok items1 =>
      { w := Encode w (marshalItems lib items1),
        log := [], calls := [Call.Find [], Call.All] }

/-- Source `updateItem` (database.go:101-131). -/
def updateItem (collection : Collection) (id : String) (body : Option JSON) : Exchange :=
  let w := ResponseWriter.fresh
  let (updatedItem, err) := Decode body Item.zero
  match err with
  | some _ =>
    { w := httpError w "Invalid request body" StatusBadRequest, log := [], calls := [] }
  | none =>
    let filter := idFilter id
    let update := setUpdate updatedItem
    match collection.UpdateOne filter update with
    | Except.error e =>
      { w := httpError w "Failed to update item" StatusInternalServerError,
        log := [e], calls := [Call.UpdateOne filter update] }
    | Except.ok result =>
      if result.ModifiedCount = 0 then
        { w := httpError w "Item not found" StatusNotFound,
          log := [], calls := [Call.UpdateOne filter update] }
      else
        let w1 := w.WriteHeader StatusOK
        { w := Encode w1 (Except.ok (marshalInt64 result.ModifiedCount)),
          log := [], calls := [Call.UpdateOne filter update] }

/-- Source `deleteItem` (database.go:133-155). -/
def deleteItem (collection : Collection) (id : String) : Exchange :=
  let w := ResponseWriter.fresh
  let filter := idFilter id
  match collection.DeleteOne filter with
  | Except.error e =>
    { w := httpError w "Failed to delete item" StatusInternalServerError,
      log := [e], calls := [Call.DeleteOne filter] }
  | Except.ok result =>
    if result.DeletedCount = 0 then
      { w := httpError w "Item not found" StatusNotFound,
        log := [], calls := [Call.DeleteOne filter] }
    else
      let w1 := w.WriteHeader StatusOK
      { w := Encode w1 (Except.ok (marshalInt64 result.DeletedCount)),
        log := [], calls := [Call.DeleteOne filter] }

/-! ## Sample inputs -/

/-- A library instance for evaluation: strings without characters to escape,
items encoded by their name alone. -/
def sampleLib : JSONLib :=
  { marshalString := fun s => "\"" ++ s ++ "\"",
    marshalItemJSON := fun it => Except.ok ("\"" ++ it.Name ++ "\"") }

/-- A collection holding nothing: inserts succeed with a generated id, finds
yield no document, updates and deletes match nothing. -/
def emptyCollection : Collection :=
  { InsertOne := fun _ => Except.ok (InsertedID.objectID { bytes := [1, 2, 3, 4, 5, 6, 7, 8, 9, 10, 11, 255] }),
    Find := fun _ => Except.ok { docs := Except.ok [] },
    UpdateOne := fun _ _ => Except.ok { MatchedCount := 0, ModifiedCount := 0, UpsertedCount := 0 },
    DeleteOne := fun _ => Except.ok { DeletedCount := 0 } }

/-- A collection whose one document is matched and changed by every update and
removed by every delete; an insert echoes the `_id` of the document. -/
def busyCollection : Collection :=
  { InsertOne := fun doc =>
      match List.lookup "_id" doc with
      | some (BValue.string s) => Except.ok (InsertedID.string s)
      | _ => Except.ok (InsertedID.objectID { bytes := [101, 102, 103, 104, 105, 106, 107, 108, 109, 110, 111, 112] }),
    Find := fun _ => Except.ok { docs := Except.ok [{ ID := "a1", Name := "Widget", Price := { bits := 0x4029000000000000 } }] },
    UpdateOne := fun _ _ => Except.ok { MatchedCount := 1, ModifiedCount := 1, UpsertedCount := 0 },
    DeleteOne := fun _ => Except.ok { DeletedCount := 1 } }

/-- A collection on which an update matches the document without changing it. -/
def unchangedCollection : Collection :=
  { busyCollection with
    UpdateOne := fun _ _ => Except.ok { MatchedCount := 1, ModifiedCount := 0, UpsertedCount := 0 } }

/-- A collection whose every call fails with the given message. -/
def brokenCollection (msg : String) : Collection :=
  { InsertOne := fun _ => Except.error msg,
    Find := fun _ => Except.error msg,
    UpdateOne := fun _ _ => Except.error msg,
    DeleteOne := fun _ => Except.error msg }

/-- A collection whose find succeeds and whose cursor fails while iterating. -/
def brokenCursorCollection (msg : String) : Collection :=
  { brokenCollection msg with Find := fun _ => Except.ok { docs := Except.error msg } }

/-- The `float64` 9.99. -/
def price999 : Float64 := { bits := 0x4023FAE147AE147B }

/-- Body `{"price": 9.99}`. -/
def priceBody : Option JSON := some (JSON.obj [("price", JSON.num (some price999))])

/-- Body `{"name": "Widget", "price": 12.5}`. -/
def widgetBody : Option JSON :=
  some (JSON.obj [("name", JSON.str "Widget"), ("price", JSON.num (some { bits := 0x4029000000000000 }))])

/-- Body `{"id": "abc", "name": "Widget", "price": 12.5}`. -/
def widgetBodyWithId : Option JSON :=
  some (JSON.obj [("id", JSON.str "abc"), ("name", JSON.str "Widget"),
    ("price", JSON.num (some { bits := 0x4029000000000000 }))])

/-- Body `{"name": 9.99}`: well-formed JSON that does not fit an `Item`. -/
def mistypedBody : Option JSON := some (JSON.obj [("name", JSON.num (some price999))])

/-! ## Vocabulary of the statements -/

/-- The read of `getItems` fails with message `e`: at the find, or while the
cursor is drained into the nil slice `items`. -/
def fetchFails (collection : Collection) (e : String) : Prop :=
  collection.Find [] = Except.error e ∨
  ∃ cursor, collection.Find [] = Except.ok cursor ∧ cursor.All none = Except.error e

/-- The body is an object with a member that the decoder stores into the field
tagged `field`: the field is present in the body. -/
def bodyHas (field : String) : Option JSON → Bool
  | some (JSON.obj kvs) => kvs.any fun kv => keyIs field kv.1
  | _ => false

/-- The body without the members that the decoder stores into the field tagged
`field`; two bodies with the same image differ at most in that field. -/
def dropMember (field : String) : Option JSON → Option JSON
  | some (JSON.obj kvs) => some (JSON.obj (kvs.filter fun kv => !keyIs field kv.1))
  | b => b

/-- A document without its element `_id`. -/
def BDoc.withoutId (d : BDoc) : BDoc := d.filter fun e => e.1 != "_id"

/-- Modelled from the spec: the storage side of `$set` on one field, which is
the database and not code of the repository ("a merge/set operation, not a full
document replace"): the value of an existing field is replaced, a new field is
appended. -/
def setField : BDoc → String → BValue → BDoc
  | [], k, v => [(k, v)]
  | e :: rest, k, v => if e.1 = k then (k, v) :: rest else e :: setField rest k v

/-- Modelled from the spec: the storage side of `UpdateByID`, the stored document
after `$set` with operand `set`: its fields are set one after the other, every
other field of the stored document is left as it is. -/
def applySet (stored set : BDoc) : BDoc :=
  set.foldl (fun d kv => setField d kv.1 kv.2) stored

/-- Body `{"price": 0}`. -/
def zeroPriceBody : Option JSON := some (JSON.obj [("price", JSON.num (some { bits := 0 }))])

/-- Body `{"name": ""}`. -/
def emptyNameBody : Option JSON := some (JSON.obj [("name", JSON.str "")])

/-- Body `{}`. -/
def emptyObjectBody : Option JSON := some (JSON.obj [])

/-- A stored document `{_id: "a1", name: "Widget", price: 12.5}`. -/
def storedWidget : BDoc :=
  [("_id", BValue.string "a1"), ("name", BValue.string "Widget"),
    ("price", BValue.double { bits := 0x4029000000000000 })]

/-- The members of a body that is an object; no member otherwise. -/
def members : Option JSON → List (String × JSON)
  | some (JSON.obj kvs) => kvs
  | _ => []

/-- One step of reading the id off the body: an `id` member that holds a string
gives that string, any other member leaves the id read so far. -/
def suppliedIdStep (acc : String) (kv : String × JSON) : String :=
  if keyIs "id" kv.1 then
    match kv.2 with
    | JSON.str s => s
    | _ => acc
  else acc

/-- The id the caller supplies in the body: the string held by the last `id`
member that holds a string; the empty string when the body has no such member
(no `id` member at all, or `id` members that are `null`). -/
def suppliedId (body : Option JSON) : String :=
  (members body).foldl suppliedIdStep ""

/-- Body `{"id": null, "name": "Widget", "price": 12.5}`. -/
def widgetBodyNullId : Option JSON :=
  some (JSON.obj [("id", JSON.null), ("name", JSON.str "Widget"),
    ("price", JSON.num (some { bits := 0x4029000000000000 }))])

/-- Body `{"id": "", "name": "Widget", "price": 12.5}`. -/
def widgetBodyEmptyId : Option JSON :=
  some (JSON.obj [("id", JSON.str ""), ("name", JSON.str "Widget"),
    ("price", JSON.num (some { bits := 0x4029000000000000 }))])

/-! ## Lemmas on the response writer -/

/-- An error reply on a fresh writer: the status and the message with its newline. -/
theorem httpError_fresh (msg : String) (code : Nat) :
    httpError ResponseWriter.fresh msg code = { status := some code, body := msg ++ "\n" } := by
  simp [httpError, ResponseWriter.fresh, ResponseWriter.WriteHeader, ResponseWriter.Write]

/-- An encoded reply after an explicit header on a fresh writer. -/
theorem encode_after_header (code : Nat) (s : String) :
    Encode (ResponseWriter.fresh.WriteHeader code) (Except.ok s) =
      { status := some code, body := s ++ "\n" } := by
  simp [Encode, ResponseWriter.fresh, ResponseWriter.WriteHeader, ResponseWriter.Write]

/-! ## Update and delete: success and not-found -/

/-- C1: when the body decodes and the storage update returns a result without
error, `updateItem` answers 404 if the modified count is zero, and otherwise 200
with the JSON encoding of the modified count as the body (written by the
encoder, which ends it with a newline). -/
theorem updateItem_result_response (collection : Collection) (id : String)
    (body : Option JSON) (result : UpdateResult)
    (hdec : (Decode body Item.zero).2 = none)
    (hupd : collection.UpdateOne (idFilter id) (setUpdate (Decode body Item.zero).1)
      = Except.ok result) :
    (result.ModifiedCount = 0 →
      (updateItem collection id body).w.status = some 404) ∧
    (result.ModifiedCount ≠ 0 →
      (updateItem collection id body).w.status = some 200 ∧
      (updateItem collection id body).w.body = marshalInt64 result.ModifiedCount ++ "\n") := by
  rcases hd : Decode body Item.zero with ⟨it, err⟩
  rw [hd] at hdec hupd
  simp only at hdec hupd
  subst hdec
  constructor
  · intro h0
    simp [updateItem, hd, hupd, h0, httpError_fresh]
  · intro h0
    simp [updateItem, hd, hupd, h0, encode_after_header]

/-- Instance of C1: `PUT /items/a1` with body `{"price": 9.99}` on a collection that modifies one document answers 200 with body `1`. -/
theorem updateItem_result_response_witness :
    (Decode priceBody Item.zero).2 = none ∧
    busyCollection.UpdateOne (idFilter "a1") (setUpdate (Decode priceBody Item.zero).1)
      = Except.ok { MatchedCount := 1, ModifiedCount := 1, UpsertedCount := 0 } ∧
    (updateItem busyCollection "a1" priceBody).w.status = some 200 ∧
    (updateItem busyCollection "a1" priceBody).w.body = "1\n" :=
  ⟨rfl, rfl,
    (updateItem_result_response busyCollection "a1" priceBody
      { MatchedCount := 1, ModifiedCount := 1, UpsertedCount := 0 } rfl rfl).2 (by decide)⟩

/-- C2: when the storage delete returns a result without error, `deleteItem`
answers 404 if the deleted count is zero, and otherwise 200 with the JSON
encoding of the deleted count as the body (written by the encoder, which ends
it with a newline). -/
theorem deleteItem_result_response (collection : Collection) (id : String)
    (result : DeleteResult)
    (hdel : collection.DeleteOne (idFilter id) = Except.ok result) :
    (result.DeletedCount = 0 →
      (deleteItem collection id).w.status = some 404) ∧
    (result.DeletedCount ≠ 0 →
      (deleteItem collection id).w.status = some 200 ∧
      (deleteItem collection id).w.body = marshalInt64 result.DeletedCount ++ "\n") := by
  constructor
  · intro h0
    simp [deleteItem, hdel, h0, httpError_fresh]
  · intro h0
    simp [deleteItem, hdel, h0, encode_after_header]

/-- Instance of C2: `DELETE /items/a1` on a collection that deletes one document answers 200 with body `1`. -/
theorem deleteItem_result_response_witness :
    busyCollection.DeleteOne (idFilter "a1") = Except.ok { DeletedCount := 1 } ∧
    (deleteItem busyCollection "a1").w.status = some 200 ∧
    (deleteItem busyCollection "a1").w.body = "1\n" :=
  ⟨rfl, (deleteItem_result_response busyCollection "a1" { DeletedCount := 1 } rfl).2 (by decide)⟩

/-! ## Malformed bodies -/

/-- C3: when the body fails to decode as an `Item`, `createItem` and `updateItem`
both answer 400 and issue no storage call (the list of driver calls is empty). -/
theorem malformed_body_rejected (lib : JSONLib) (collection : Collection) (id : String)
    (body : Option JSON) (hdec : (Decode body Item.zero).2 ≠ none) :
    ((createItem lib collection body).w.status = some 400 ∧
      (createItem lib collection body).calls = []) ∧
    ((updateItem collection id body).w.status = some 400 ∧
      (updateItem collection id body).calls = []) := by
  rcases hd : Decode body Item.zero with ⟨it, err⟩
  rw [hd] at hdec
  cases err with
  | none => exact absurd rfl hdec
  | some e => simp [createItem, updateItem, hd, httpError_fresh]

/-- Instance of C3: the body `{"name": 9.99}` is answered with 400 by both handlers, without any driver call. -/
theorem malformed_body_rejected_witness :
    (Decode mistypedBody Item.zero).2 ≠ none ∧
    ((createItem sampleLib busyCollection mistypedBody).w.status = some 400 ∧
      (createItem sampleLib busyCollection mistypedBody).calls = []) ∧
    ((updateItem busyCollection "a1" mistypedBody).w.status = some 400 ∧
      (updateItem busyCollection "a1" mistypedBody).calls = []) :=
  ⟨by decide, malformed_body_rejected sampleLib busyCollection "a1" mistypedBody (by decide)⟩

/-! ## Creation -/

/-- C5: when the body decodes and the storage insert returns the generated
identifier `g` without error, `createItem` answers 201 with the JSON encoding of
`g` as the body (written by the encoder, which ends it with a newline). -/
theorem createItem_created_response (lib : JSONLib) (collection : Collection)
    (body : Option JSON) (g : InsertedID)
    (hdec : (Decode body Item.zero).2 = none)
    (hins : collection.InsertOne (marshalItem (Decode body Item.zero).1) = Except.ok g) :
    (createItem lib collection body).w.status = some 201 ∧
    (createItem lib collection body).w.body = marshalInsertedID lib g ++ "\n" := by
  rcases hd : Decode body Item.zero with ⟨it, err⟩
  rw [hd] at hdec hins
  simp only at hdec hins
  subst hdec
  simp [createItem, hd, hins, encode_after_header]

/-- Instance of C5: a created item is answered with 201 and the hex string of the generated ObjectID. -/
theorem createItem_created_response_witness :
    (Decode widgetBody Item.zero).2 = none ∧
    emptyCollection.InsertOne (marshalItem (Decode widgetBody Item.zero).1)
      = Except.ok (InsertedID.objectID { bytes := [1, 2, 3, 4, 5, 6, 7, 8, 9, 10, 11, 255] }) ∧
    (createItem sampleLib emptyCollection widgetBody).w.status = some 201 ∧
    (createItem sampleLib emptyCollection widgetBody).w.body = "\"0102030405060708090a0bff\"\n" :=
  ⟨rfl, rfl,
    createItem_created_response sampleLib emptyCollection widgetBody
      (InsertedID.objectID { bytes := [1, 2, 3, 4, 5, 6, 7, 8, 9, 10, 11, 255] }) rfl rfl⟩

/-! ## Matched but unmodified updates -/

/-- C9: the outcome of `updateItem` is decided by `ModifiedCount` alone: two
storage results with the same modified count give the same response whatever
their matched counts, and a result without error with `MatchedCount >= 1` and
`ModifiedCount = 0` gives 404 with the message "Item not found". -/
theorem updateItem_ignores_matched_count (c1 c2 : Collection) (id : String)
    (body : Option JSON) (r1 r2 : UpdateResult)
    (hdec : (Decode body Item.zero).2 = none)
    (h1 : c1.UpdateOne (idFilter id) (setUpdate (Decode body Item.zero).1) = Except.ok r1)
    (h2 : c2.UpdateOne (idFilter id) (setUpdate (Decode body Item.zero).1) = Except.ok r2) :
    (r1.ModifiedCount = r2.ModifiedCount →
      (updateItem c1 id body).w = (updateItem c2 id body).w) ∧
    (1 ≤ r1.MatchedCount → r1.ModifiedCount = 0 →
      (updateItem c1 id body).w = { status := some 404, body := "Item not found\n" }) := by
  rcases hd : Decode body Item.zero with ⟨it, err⟩
  rw [hd] at hdec h1 h2
  simp only at hdec h1 h2
  subst hdec
  constructor
  · intro heq
    by_cases h0 : r2.ModifiedCount = 0
    · simp [updateItem, hd, h1, h2, h0, heq]
    · simp [updateItem, hd, h1, h2, h0, heq]
  · intro _ h0
    simp [updateItem, hd, h1, h0, httpError_fresh]

/-- Instance of C9: an update that matches one document and modifies none is answered like one that matches nothing. -/
theorem updateItem_ignores_matched_count_witness :
    (Decode priceBody Item.zero).2 = none ∧
    (1 : Int) ≤ 1 ∧ (0 : Int) = 0 ∧
    (updateItem unchangedCollection "a1" priceBody).w
      = { status := some 404, body := "Item not found\n" } ∧
    (updateItem unchangedCollection "a1" priceBody).w
      = (updateItem emptyCollection "a1" priceBody).w :=
  ⟨rfl, by decide, rfl,
    (updateItem_ignores_matched_count unchangedCollection emptyCollection "a1" priceBody
      { MatchedCount := 1, ModifiedCount := 0, UpsertedCount := 0 }
      { MatchedCount := 0, ModifiedCount := 0, UpsertedCount := 0 } rfl rfl rfl).2
      (by decide) rfl,
    (updateItem_ignores_matched_count unchangedCollection emptyCollection "a1" priceBody
      { MatchedCount := 1, ModifiedCount := 0, UpsertedCount := 0 }
      { MatchedCount := 0, ModifiedCount := 0, UpsertedCount := 0 } rfl rfl rfl).1 rfl⟩

/-! ## Storage errors -/

/-- C4: in each of the four handlers a storage call that returns an error gives
status 500 and a fixed body: for two storage errors `e1` and `e2` on the same
request the two responses (status and body) are the same. -/
theorem storage_error_response_fixed (lib : JSONLib) (c1 c2 : Collection) (id : String)
    (body : Option JSON) (e1 e2 : String) :
    ((Decode body Item.zero).2 = none →
      c1.InsertOne (marshalItem (Decode body Item.zero).1) = Except.error e1 →
      c2.InsertOne (marshalItem (Decode body Item.zero).1) = Except.error e2 →
      (createItem lib c1 body).w = { status := some 500, body := "Failed to create item\n" } ∧
      (createItem lib c2 body).w = (createItem lib c1 body).w) ∧
    (fetchFails c1 e1 → fetchFails c2 e2 →
      (getItems lib c1).w = { status := some 500, body := "Failed to fetch items\n" } ∧
      (getItems lib c2).w = (getItems lib c1).w) ∧
    ((Decode body Item.zero).2 = none →
      c1.UpdateOne (idFilter id) (setUpdate (Decode body Item.zero).1) = Except.error e1 →
      c2.UpdateOne (idFilter id) (setUpdate (Decode body Item.zero).1) = Except.error e2 →
      (updateItem c1 id body).w = { status := some 500, body := "Failed to update item\n" } ∧
      (updateItem c2 id body).w = (updateItem c1 id body).w) ∧
    (c1.DeleteOne (idFilter id) = Except.error e1 →
      c2.DeleteOne (idFilter id) = Except.error e2 →
      (deleteItem c1 id).w = { status := some 500, body := "Failed to delete item\n" } ∧
      (deleteItem c2 id).w = (deleteItem c1 id).w) := by
  have hfetch : ∀ (c : Collection) (e : String), fetchFails c e →
      (getItems lib c).w = { status := some 500, body := "Failed to fetch items\n" } := by
    intro c e hf
    rcases hf with hf | ⟨cursor, hf, hall⟩
    · simp [getItems, hf, httpError_fresh]
    · simp [getItems, hf, hall, httpError_fresh]
  rcases hd : Decode body Item.zero with ⟨it, err⟩
  refine ⟨?_, ?_, ?_, ?_⟩
  · intro hdec h1 h2
    simp only at hdec h1 h2
    subst hdec
    simp [createItem, hd, h1, h2, httpError_fresh]
  · intro h1 h2
    rw [hfetch c1 e1 h1, hfetch c2 e2 h2]
    exact ⟨rfl, rfl⟩
  · intro hdec h1 h2
    simp only at hdec h1 h2
    subst hdec
    simp [updateItem, hd, h1, h2, httpError_fresh]
  · intro h1 h2
    simp [deleteItem, h1, h2, httpError_fresh]

/-- Instance of C4: a timeout and a "not primary" error give the same 500 response in each handler. -/
theorem storage_error_response_fixed_witness :
    ((createItem sampleLib (brokenCollection "dial tcp: i/o timeout") widgetBody).w
        = { status := some 500, body := "Failed to create item\n" } ∧
      (createItem sampleLib (brokenCollection "not primary") widgetBody).w
        = (createItem sampleLib (brokenCollection "dial tcp: i/o timeout") widgetBody).w) ∧
    ((getItems sampleLib (brokenCollection "dial tcp: i/o timeout")).w
        = { status := some 500, body := "Failed to fetch items\n" } ∧
      (getItems sampleLib (brokenCursorCollection "not primary")).w
        = (getItems sampleLib (brokenCollection "dial tcp: i/o timeout")).w) ∧
    ((updateItem (brokenCollection "dial tcp: i/o timeout") "a1" widgetBody).w
        = { status := some 500, body := "Failed to update item\n" } ∧
      (updateItem (brokenCollection "not primary") "a1" widgetBody).w
        = (updateItem (brokenCollection "dial tcp: i/o timeout") "a1" widgetBody).w) ∧
    ((deleteItem (brokenCollection "dial tcp: i/o timeout") "a1").w
        = { status := some 500, body := "Failed to delete item\n" } ∧
      (deleteItem (brokenCollection "not primary") "a1").w
        = (deleteItem (brokenCollection "dial tcp: i/o timeout") "a1").w) :=
  have h := storage_error_response_fixed sampleLib (brokenCollection "dial tcp: i/o timeout")
    (brokenCollection "not primary") "a1" widgetBody "dial tcp: i/o timeout" "not primary"
  have hcur := storage_error_response_fixed sampleLib (brokenCollection "dial tcp: i/o timeout")
    (brokenCursorCollection "not primary") "a1" widgetBody "dial tcp: i/o timeout" "not primary"
  ⟨h.1 rfl rfl rfl,
    hcur.2.1 (Or.inl rfl) (Or.inr ⟨{ docs := Except.error "not primary" }, rfl, rfl⟩),
    h.2.2.1 rfl rfl rfl,
    h.2.2.2 rfl rfl⟩

/-! ## Listing an empty collection -/

/-- C6 (what the code does): when the find succeeds and the cursor yields no
document, `getItems` answers 200 and the body is the JSON value `null`: the nil
slice `items` is left nil by the driver and a nil slice encodes as `null`, not
as `[]`. -/
theorem getItems_empty_is_null (lib : JSONLib) (collection : Collection) (cursor : Cursor)
    (hfind : collection.Find [] = Except.ok cursor)
    (hdocs : cursor.docs = Except.ok []) :
    (getItems lib collection).w = { status := some 200, body := "null\n" } ∧
    (getItems lib collection).w.body ≠ "[]\n" := by
  have hall : cursor.All none = Except.ok none := by
    simp [Cursor.All, hdocs]
  have hw : (getItems lib collection).w = { status := some 200, body := "null\n" } := by
    simp [getItems, hfind, hall, marshalItems, Encode, ResponseWriter.Write,
      ResponseWriter.WriteHeader, ResponseWriter.fresh]
  refine ⟨hw, ?_⟩
  rw [hw]
  decide

/-- Instance of C6: listing the empty collection answers 200 with body `null`. -/
theorem getItems_empty_is_null_witness :
    emptyCollection.Find [] = Except.ok { docs := Except.ok [] } ∧
    (getItems sampleLib emptyCollection).w = { status := some 200, body := "null\n" } ∧
    (getItems sampleLib emptyCollection).w.body ≠ "[]\n" :=
  ⟨rfl, getItems_empty_is_null sampleLib emptyCollection { docs := Except.ok [] } rfl rfl⟩

/-! ## Lemmas on decoding and on the documents -/

/-- A member that is not `id` leaves the ID as it is. -/
theorem storeMember_ID (st : Item × Option DecodeError) (kv : String × JSON)
    (h : keyIs "id" kv.1 = false) : (storeMember st kv).1.ID = st.1.ID := by
  unfold storeMember
  split
  · simp_all
  · split
    · rfl
    · split <;> rfl

/-- A member that is not `name` leaves the name as it is. -/
theorem storeMember_Name (st : Item × Option DecodeError) (kv : String × JSON)
    (h : keyIs "name" kv.1 = false) : (storeMember st kv).1.Name = st.1.Name := by
  unfold storeMember
  split
  · rfl
  · split
    · simp_all
    · split <;> rfl

/-- A member that is not `price` leaves the price as it is. -/
theorem storeMember_Price (st : Item × Option DecodeError) (kv : String × JSON)
    (h : keyIs "price" kv.1 = false) : (storeMember st kv).1.Price = st.1.Price := by
  unfold storeMember
  split
  · rfl
  · split
    · rfl
    · split
      · simp_all
      · rfl

/-- Members none of which is `id` leave the ID as it is. -/
theorem foldl_storeMember_ID (kvs : List (String × JSON)) (st : Item × Option DecodeError)
    (h : (kvs.any fun kv => keyIs "id" kv.1) = false) :
    (kvs.foldl storeMember st).1.ID = st.1.ID := by
  induction kvs generalizing st with
  | nil => rfl
  | cons kv rest ih =>
    simp only [List.any_cons, Bool.or_eq_false_iff] at h
    rw [List.foldl_cons, ih _ h.2, storeMember_ID st kv h.1]

/-- Members none of which is `name` leave the name as it is. -/
theorem foldl_storeMember_Name (kvs : List (String × JSON)) (st : Item × Option DecodeError)
    (h : (kvs.any fun kv => keyIs "name" kv.1) = false) :
    (kvs.foldl storeMember st).1.Name = st.1.Name := by
  induction kvs generalizing st with
  | nil => rfl
  | cons kv rest ih =>
    simp only [List.any_cons, Bool.or_eq_false_iff] at h
    rw [List.foldl_cons, ih _ h.2, storeMember_Name st kv h.1]

/-- Members none of which is `price` leave the price as it is. -/
theorem foldl_storeMember_Price (kvs : List (String × JSON)) (st : Item × Option DecodeError)
    (h : (kvs.any fun kv => keyIs "price" kv.1) = false) :
    (kvs.foldl storeMember st).1.Price = st.1.Price := by
  induction kvs generalizing st with
  | nil => rfl
  | cons kv rest ih =>
    simp only [List.any_cons, Bool.or_eq_false_iff] at h
    rw [List.foldl_cons, ih _ h.2, storeMember_Price st kv h.1]

/-- A field that is not present in the body keeps its zero value in the decoded item. -/
theorem Decode_absent_field (body : Option JSON) :
    (bodyHas "id" body = false → (Decode body Item.zero).1.ID = "") ∧
    (bodyHas "name" body = false → (Decode body Item.zero).1.Name = "") ∧
    (bodyHas "price" body = false → (Decode body Item.zero).1.Price = { bits := 0 }) := by
  cases body with
  | none => exact ⟨fun _ => rfl, fun _ => rfl, fun _ => rfl⟩
  | some v =>
    cases v with
    | obj kvs =>
      refine ⟨fun h => ?_, fun h => ?_, fun h => ?_⟩
      · exact foldl_storeMember_ID kvs _ h
      · exact foldl_storeMember_Name kvs _ h
      · exact foldl_storeMember_Price kvs _ h
    | _ => exact ⟨fun _ => rfl, fun _ => rfl, fun _ => rfl⟩

/-- The keys of the BSON encoding of an item: each field occurs iff it is not empty. -/
theorem marshalItem_keys (it : Item) :
    ("_id" ∈ (marshalItem it).keys ↔ it.ID ≠ "") ∧
    ("name" ∈ (marshalItem it).keys ↔ it.Name ≠ "") ∧
    ("price" ∈ (marshalItem it).keys ↔ it.Price.eqZero = false) ∧
    (∀ k ∈ (marshalItem it).keys, k = "_id" ∨ k = "name" ∨ k = "price") := by
  unfold marshalItem BDoc.keys
  by_cases h1 : it.ID = "" <;> by_cases h2 : it.Name = "" <;>
    by_cases h3 : it.Price.eqZero = true <;> simp [h1, h2, h3]

/-- On a body that decodes `updateItem` issues exactly one update, with the id filter and the `$set` of the decoded item. -/
theorem updateItem_calls (collection : Collection) (id : String) (body : Option JSON)
    (hdec : (Decode body Item.zero).2 = none) :
    (updateItem collection id body).calls
      = [Call.UpdateOne (idFilter id) [("$set", marshalItem (Decode body Item.zero).1)]] := by
  rcases hd : Decode body Item.zero with ⟨it, err⟩
  rw [hd] at hdec
  simp only at hdec
  subst hdec
  simp only [updateItem, hd, setUpdate]
  cases collection.UpdateOne (idFilter id) [("$set", marshalItem it)] with
  | error e => rfl
  | ok r => by_cases h0 : r.ModifiedCount = 0 <;> simp [h0]

/-- Setting one field does not change the value of another. -/
theorem lookup_setField (d : BDoc) (k k1 : String) (v : BValue) (hne : k1 ≠ k) :
    List.lookup k1 (setField d k v) = List.lookup k1 d := by
  have h1 : (k1 == k) = false := by simpa using hne
  induction d with
  | nil => simp [setField, List.lookup, h1]
  | cons e rest ih =>
    obtain ⟨ek, ev⟩ := e
    by_cases hk : ek = k
    · subst hk
      simp [setField, List.lookup, h1]
    · simp only [setField, hk, if_false, List.lookup]
      rw [ih]

/-- A `$set` does not change the value of a field that is not in its operand. -/
theorem lookup_applySet (set stored : BDoc) (k1 : String) (h : k1 ∉ set.keys) :
    List.lookup k1 (applySet stored set) = List.lookup k1 stored := by
  induction set generalizing stored with
  | nil => rfl
  | cons kv rest ih =>
    simp only [BDoc.keys, List.map_cons, List.mem_cons, not_or] at h
    have hrest : k1 ∉ BDoc.keys rest := h.2
    unfold applySet
    rw [List.foldl_cons]
    have := ih (setField stored kv.1 kv.2) hrest
    unfold applySet at this
    rw [this, lookup_setField stored kv.1 k1 kv.2 h.1]

/-- An `id` member leaves the name and the price as they are. -/
theorem storeMember_of_id (st : Item × Option DecodeError) (kv : String × JSON)
    (h : keyIs "id" kv.1 = true) :
    (storeMember st kv).1.Name = st.1.Name ∧ (storeMember st kv).1.Price = st.1.Price := by
  simp [storeMember, h]

/-- Storing a member into two states with the same name and price gives the same name and price. -/
theorem storeMember_congr (st st1 : Item × Option DecodeError) (kv : String × JSON)
    (hN : st.1.Name = st1.1.Name) (hP : st.1.Price = st1.1.Price) :
    (storeMember st kv).1.Name = (storeMember st1 kv).1.Name ∧
    (storeMember st kv).1.Price = (storeMember st1 kv).1.Price := by
  unfold storeMember
  split
  · exact ⟨hN, hP⟩
  · split
    · simp [hN, hP]
    · split
      · simp [hN, hP]
      · exact ⟨hN, hP⟩

/-- The name and the price of the decoded item depend on the members other than `id` alone. -/
theorem foldl_storeMember_dropId (kvs : List (String × JSON))
    (st st1 : Item × Option DecodeError)
    (hN : st.1.Name = st1.1.Name) (hP : st.1.Price = st1.1.Price) :
    (kvs.foldl storeMember st).1.Name
      = ((kvs.filter fun kv => !keyIs "id" kv.1).foldl storeMember st1).1.Name ∧
    (kvs.foldl storeMember st).1.Price
      = ((kvs.filter fun kv => !keyIs "id" kv.1).foldl storeMember st1).1.Price := by
  induction kvs generalizing st st1 with
  | nil => exact ⟨hN, hP⟩
  | cons kv rest ih =>
    by_cases hk : keyIs "id" kv.1 = true
    · have hs := storeMember_of_id st kv hk
      have hf : ((kv :: rest).filter fun kv => !keyIs "id" kv.1)
          = rest.filter fun kv => !keyIs "id" kv.1 := by
        simp [List.filter, hk]
      rw [hf, List.foldl_cons]
      exact ih _ _ (hs.1.trans hN) (hs.2.trans hP)
    · have hf : ((kv :: rest).filter fun kv => !keyIs "id" kv.1)
          = kv :: rest.filter fun kv => !keyIs "id" kv.1 := by
        simp [List.filter, hk]
      have hs := storeMember_congr st st1 kv hN hP
      rw [hf, List.foldl_cons, List.foldl_cons]
      exact ih _ _ hs.1 hs.2

/-- Two bodies that decode and differ at most in the `id` member give items with
the same name and the same price. -/
theorem Decode_dropId (b1 b2 : Option JSON)
    (h1 : (Decode b1 Item.zero).2 = none) (h2 : (Decode b2 Item.zero).2 = none)
    (hsame : dropMember "id" b1 = dropMember "id" b2) :
    (Decode b1 Item.zero).1.Name = (Decode b2 Item.zero).1.Name ∧
    (Decode b1 Item.zero).1.Price = (Decode b2 Item.zero).1.Price := by
  have key : ∀ kvs : List (String × JSON),
      (kvs.foldl storeMember (Item.zero, none)).1.Name
        = ((kvs.filter fun kv => !keyIs "id" kv.1).foldl storeMember (Item.zero, none)).1.Name ∧
      (kvs.foldl storeMember (Item.zero, none)).1.Price
        = ((kvs.filter fun kv => !keyIs "id" kv.1).foldl storeMember (Item.zero, none)).1.Price :=
    fun kvs => foldl_storeMember_dropId kvs _ _ rfl rfl
  cases b1 with
  | none => simp [Decode] at h1
  | some v1 =>
    cases b2 with
    | none => simp [Decode] at h2
    | some v2 =>
      cases v1 <;> cases v2 <;>
        first
          | (simp [Decode] at h1; done)
          | (simp [Decode] at h2; done)
          | (simp [dropMember] at hsame; done)
          | exact ⟨rfl, rfl⟩
          | skip
      rename_i kvs1 kvs2
      simp only [dropMember, Option.some.injEq, JSON.obj.injEq] at hsame
      simp only [Decode]
      rw [(key kvs1).1, (key kvs1).2, (key kvs2).1, (key kvs2).2, hsame]
      exact ⟨rfl, rfl⟩

/-- The BSON encoding of an item without its `_id`: the name and the price elements. -/
theorem marshalItem_withoutId (it : Item) :
    (marshalItem it).withoutId
      = (if it.Name = "" then [] else [("name", BValue.string it.Name)]) ++
        (if it.Price.eqZero then [] else [("price", BValue.double it.Price)]) := by
  unfold marshalItem BDoc.withoutId
  by_cases h1 : it.ID = "" <;> by_cases h2 : it.Name = "" <;>
    by_cases h3 : it.Price.eqZero = true <;> simp [h1, h2, h3, List.filter]

/-- The `_id` of the BSON encoding of an item: the ID when it is not empty. -/
theorem marshalItem_lookup_id (it : Item) :
    List.lookup "_id" (marshalItem it)
      = if it.ID = "" then none else some (BValue.string it.ID) := by
  unfold marshalItem
  by_cases h1 : it.ID = "" <;> by_cases h2 : it.Name = "" <;>
    by_cases h3 : it.Price.eqZero = true <;> simp [h1, h2, h3, List.lookup]

/-- On a body that decodes `createItem` issues exactly one insert, of the BSON encoding of the decoded item. -/
theorem createItem_calls (lib : JSONLib) (collection : Collection) (body : Option JSON)
    (hdec : (Decode body Item.zero).2 = none) :
    (createItem lib collection body).calls
      = [Call.InsertOne (marshalItem (Decode body Item.zero).1)] := by
  rcases hd : Decode body Item.zero with ⟨it, err⟩
  rw [hd] at hdec
  simp only at hdec
  subst hdec
  simp only [createItem, hd]
  cases collection.InsertOne (marshalItem it) with
  | error e => rfl
  | ok r => rfl

/-- Storing one member changes the ID as reading the supplied id does. -/
theorem storeMember_suppliedIdStep (st : Item × Option DecodeError) (kv : String × JSON) :
    (storeMember st kv).1.ID = suppliedIdStep st.1.ID kv := by
  unfold storeMember suppliedIdStep
  split
  · cases kv.2 <;> simp [storeString]
  · split
    · rfl
    · split <;> rfl

/-- The ID left by the decoder is the id read off the members. -/
theorem foldl_storeMember_suppliedId (kvs : List (String × JSON))
    (st : Item × Option DecodeError) :
    (kvs.foldl storeMember st).1.ID = kvs.foldl suppliedIdStep st.1.ID := by
  induction kvs generalizing st with
  | nil => rfl
  | cons kv rest ih =>
    rw [List.foldl_cons, List.foldl_cons, ih, storeMember_suppliedIdStep]

/-- The decoded ID is the id the caller supplies in the body. -/
theorem Decode_ID (body : Option JSON) :
    (Decode body Item.zero).1.ID = suppliedId body := by
  cases body with
  | none => rfl
  | some v =>
    cases v with
    | obj kvs => exact foldl_storeMember_suppliedId kvs _
    | _ => rfl

/-- Members whose `id` entries are all `null` or the empty string supply no id. -/
theorem foldl_suppliedIdStep_empty (kvs : List (String × JSON))
    (h : ∀ kv ∈ kvs, keyIs "id" kv.1 = true → kv.2 = JSON.null ∨ kv.2 = JSON.str "") :
    kvs.foldl suppliedIdStep "" = "" := by
  induction kvs with
  | nil => rfl
  | cons kv rest ih =>
    have hstep : suppliedIdStep "" kv = "" := by
      unfold suppliedIdStep
      split
      · next hk =>
        rcases h kv (List.mem_cons_self _ _) hk with h0 | h0 <;> rw [h0]
      · rfl
    rw [List.foldl_cons, hstep]
    exact ih fun kv1 hm => h kv1 (List.mem_cons_of_mem _ hm)

/-! ## The identifier of a created item -/

/-- C7 as stated fails: the bodies `{"id": "abc", "name": "Widget", "price": 12.5}`
and `{"name": "Widget", "price": 12.5}` both decode and differ only in the `id`
member, yet `createItem` submits two different documents to the insert, the
first of which carries the identifier `_id = "abc"`. -/
theorem createItem_id_not_ignored :
    (Decode widgetBodyWithId Item.zero).2 = none ∧
    (Decode widgetBody Item.zero).2 = none ∧
    dropMember "id" widgetBodyWithId = dropMember "id" widgetBody ∧
    (createItem sampleLib emptyCollection widgetBodyWithId).calls
      = [Call.InsertOne [("_id", BValue.string "abc"), ("name", BValue.string "Widget"),
          ("price", BValue.double { bits := 0x4029000000000000 })]] ∧
    (createItem sampleLib emptyCollection widgetBody).calls
      = [Call.InsertOne [("name", BValue.string "Widget"),
          ("price", BValue.double { bits := 0x4029000000000000 })]] ∧
    (createItem sampleLib emptyCollection widgetBodyWithId).calls
      ≠ (createItem sampleLib emptyCollection widgetBody).calls :=
  ⟨rfl, rfl, rfl, by decide, by decide, by decide⟩

/-- C7 (amended): `createItem` passes a caller-supplied id on to storage.  For
two bodies that decode and differ only in the value or presence of the `id`
member, each run issues one insert and the two documents agree on every element
other than `_id`.  The document of a body carries `_id` exactly when the id
supplied in that body (the string of its last `id` member holding a string) is
not empty, and then with that string as the value; so a body without an `id`
member, or whose `id` members are all `null` or the empty string, gives a
document without identifier, and storage generates the id. -/
theorem createItem_document_id (lib : JSONLib) (collection : Collection)
    (b1 b2 : Option JSON)
    (h1 : (Decode b1 Item.zero).2 = none) (h2 : (Decode b2 Item.zero).2 = none)
    (hsame : dropMember "id" b1 = dropMember "id" b2) :
    ∃ d1 d2 : BDoc,
      (createItem lib collection b1).calls = [Call.InsertOne d1] ∧
      (createItem lib collection b2).calls = [Call.InsertOne d2] ∧
      d1.withoutId = d2.withoutId ∧
      (List.lookup "_id" d1 = if (Decode b1 Item.zero).1.ID = "" then none
        else some (BValue.string (Decode b1 Item.zero).1.ID)) ∧
      (bodyHas "id" b1 = false → "_id" ∉ d1.keys) ∧
      (List.lookup "_id" d1 = if suppliedId b1 = "" then none
        else some (BValue.string (suppliedId b1))) ∧
      (List.lookup "_id" d2 = if suppliedId b2 = "" then none
        else some (BValue.string (suppliedId b2))) ∧
      ("_id" ∈ d1.keys ↔ suppliedId b1 ≠ "") ∧
      ("_id" ∈ d2.keys ↔ suppliedId b2 ≠ "") ∧
      ((∀ kv ∈ members b1, keyIs "id" kv.1 = true → kv.2 = JSON.null ∨ kv.2 = JSON.str "") →
        "_id" ∉ d1.keys) ∧
      ((∀ kv ∈ members b2, keyIs "id" kv.1 = true → kv.2 = JSON.null ∨ kv.2 = JSON.str "") →
        "_id" ∉ d2.keys) := by
  have hl1 := marshalItem_lookup_id (Decode b1 Item.zero).1
  have hl2 := marshalItem_lookup_id (Decode b2 Item.zero).1
  have hk1 := (marshalItem_keys (Decode b1 Item.zero).1).1
  have hk2 := (marshalItem_keys (Decode b2 Item.zero).1).1
  refine ⟨marshalItem (Decode b1 Item.zero).1, marshalItem (Decode b2 Item.zero).1,
    createItem_calls lib collection b1 h1, createItem_calls lib collection b2 h2, ?_,
    hl1, ?_, ?_, ?_, ?_, ?_, ?_, ?_⟩
  · have h := Decode_dropId b1 b2 h1 h2 hsame
    rw [marshalItem_withoutId, marshalItem_withoutId, h.1, h.2]
  · intro hno hmem
    exact (hk1.mp hmem) ((Decode_absent_field b1).1 hno)
  · rw [← Decode_ID b1]
    exact hl1
  · rw [← Decode_ID b2]
    exact hl2
  · rw [← Decode_ID b1]
    exact hk1
  · rw [← Decode_ID b2]
    exact hk2
  · intro hall hmem
    exact (hk1.mp hmem) ((Decode_ID b1).trans (foldl_suppliedIdStep_empty _ hall))
  · intro hall hmem
    exact (hk2.mp hmem) ((Decode_ID b2).trans (foldl_suppliedIdStep_empty _ hall))

/-- Instance of the amended C7: the widget body with the id `"abc"` and with the
id `null`; the first is inserted with `_id = "abc"`, the second without `_id`. -/
theorem createItem_document_id_witness :
    (Decode widgetBodyWithId Item.zero).2 = none ∧
    (Decode widgetBodyNullId Item.zero).2 = none ∧
    dropMember "id" widgetBodyWithId = dropMember "id" widgetBodyNullId ∧
    suppliedId widgetBodyWithId = "abc" ∧
    suppliedId widgetBodyNullId = "" ∧
    suppliedId widgetBodyEmptyId = "" ∧
    (createItem sampleLib emptyCollection widgetBodyWithId).calls
      = [Call.InsertOne [("_id", BValue.string "abc"), ("name", BValue.string "Widget"),
          ("price", BValue.double { bits := 0x4029000000000000 })]] ∧
    (createItem sampleLib emptyCollection widgetBodyNullId).calls
      = [Call.InsertOne [("name", BValue.string "Widget"),
          ("price", BValue.double { bits := 0x4029000000000000 })]] ∧
    (createItem sampleLib emptyCollection widgetBodyEmptyId).calls
      = [Call.InsertOne [("name", BValue.string "Widget"),
          ("price", BValue.double { bits := 0x4029000000000000 })]] ∧
    ∃ d1 d2 : BDoc,
      (createItem sampleLib emptyCollection widgetBodyWithId).calls = [Call.InsertOne d1] ∧
      (createItem sampleLib emptyCollection widgetBodyNullId).calls = [Call.InsertOne d2] ∧
      d1.withoutId = d2.withoutId ∧
      (List.lookup "_id" d1 = if (Decode widgetBodyWithId Item.zero).1.ID = "" then none
        else some (BValue.string (Decode widgetBodyWithId Item.zero).1.ID)) ∧
      (bodyHas "id" widgetBodyWithId = false → "_id" ∉ d1.keys) ∧
      (List.lookup "_id" d1 = if suppliedId widgetBodyWithId = "" then none
        else some (BValue.string (suppliedId widgetBodyWithId))) ∧
      (List.lookup "_id" d2 = if suppliedId widgetBodyNullId = "" then none
        else some (BValue.string (suppliedId widgetBodyNullId))) ∧
      ("_id" ∈ d1.keys ↔ suppliedId widgetBodyWithId ≠ "") ∧
      ("_id" ∈ d2.keys ↔ suppliedId widgetBodyNullId ≠ "") ∧
      ((∀ kv ∈ members widgetBodyWithId,
          keyIs "id" kv.1 = true → kv.2 = JSON.null ∨ kv.2 = JSON.str "") → "_id" ∉ d1.keys) ∧
      ((∀ kv ∈ members widgetBodyNullId,
          keyIs "id" kv.1 = true → kv.2 = JSON.null ∨ kv.2 = JSON.str "") → "_id" ∉ d2.keys) :=
  ⟨rfl, rfl, rfl, by decide, by decide, by decide, by decide, by decide, by decide,
    createItem_document_id sampleLib emptyCollection widgetBodyWithId widgetBodyNullId
      rfl rfl rfl⟩

/-! ## The fields written by an update -/

/-- C8: for every body that decodes, `updateItem` issues one update whose `$set`
document holds Item fields only and none that is absent from the body (a field
is present when the body is an object with a member the decoder stores into
it); so, `$set` being a merge, a field the body omits keeps its stored value. -/
theorem updateItem_sets_only_present_fields (collection : Collection) (id : String)
    (body : Option JSON) (stored : BDoc)
    (hdec : (Decode body Item.zero).2 = none) :
    ∃ d : BDoc,
      (updateItem collection id body).calls = [Call.UpdateOne (idFilter id) [("$set", d)]] ∧
      (∀ k ∈ d.keys, k = "_id" ∨ k = "name" ∨ k = "price") ∧
      ("_id" ∈ d.keys → bodyHas "id" body = true) ∧
      ("name" ∈ d.keys → bodyHas "name" body = true) ∧
      ("price" ∈ d.keys → bodyHas "price" body = true) ∧
      (bodyHas "id" body = false →
        List.lookup "_id" (applySet stored d) = List.lookup "_id" stored) ∧
      (bodyHas "name" body = false →
        List.lookup "name" (applySet stored d) = List.lookup "name" stored) ∧
      (bodyHas "price" body = false →
        List.lookup "price" (applySet stored d) = List.lookup "price" stored) := by
  have hk := marshalItem_keys (Decode body Item.zero).1
  have ha := Decode_absent_field body
  have hid : "_id" ∈ (marshalItem (Decode body Item.zero).1).keys → bodyHas "id" body = true := by
    intro hmem
    cases hb : bodyHas "id" body with
    | true => rfl
    | false => exact absurd (ha.1 hb) (hk.1.mp hmem)
  have hname : "name" ∈ (marshalItem (Decode body Item.zero).1).keys →
      bodyHas "name" body = true := by
    intro hmem
    cases hb : bodyHas "name" body with
    | true => rfl
    | false => exact absurd (ha.2.1 hb) (hk.2.1.mp hmem)
  have hprice : "price" ∈ (marshalItem (Decode body Item.zero).1).keys →
      bodyHas "price" body = true := by
    intro hmem
    cases hb : bodyHas "price" body with
    | true => rfl
    | false =>
      have hz := hk.2.2.1.mp hmem
      rw [ha.2.2 hb] at hz
      exact absurd hz (by decide)
  refine ⟨marshalItem (Decode body Item.zero).1, updateItem_calls collection id body hdec,
    hk.2.2.2, hid, hname, hprice, ?_, ?_, ?_⟩
  · intro hb
    apply lookup_applySet
    intro hmem
    rw [hid hmem] at hb
    exact absurd hb (by decide)
  · intro hb
    apply lookup_applySet
    intro hmem
    rw [hname hmem] at hb
    exact absurd hb (by decide)
  · intro hb
    apply lookup_applySet
    intro hmem
    rw [hprice hmem] at hb
    exact absurd hb (by decide)

/-- Instance of C8: the body `{"price": 9.99}` sets the price alone; merged into the stored widget it leaves `_id` and `name` as they were. -/
theorem updateItem_sets_only_present_fields_witness :
    (Decode priceBody Item.zero).2 = none ∧
    (updateItem busyCollection "a1" priceBody).calls
      = [Call.UpdateOne [("_id", BValue.string "a1")]
          [("$set", [("price", BValue.double price999)])]] ∧
    applySet storedWidget [("price", BValue.double price999)]
      = [("_id", BValue.string "a1"), ("name", BValue.string "Widget"),
          ("price", BValue.double price999)] ∧
    ∃ d : BDoc,
      (updateItem busyCollection "a1" priceBody).calls
        = [Call.UpdateOne (idFilter "a1") [("$set", d)]] ∧
      (∀ k ∈ d.keys, k = "_id" ∨ k = "name" ∨ k = "price") ∧
      ("_id" ∈ d.keys → bodyHas "id" priceBody = true) ∧
      ("name" ∈ d.keys → bodyHas "name" priceBody = true) ∧
      ("price" ∈ d.keys → bodyHas "price" priceBody = true) ∧
      (bodyHas "id" priceBody = false →
        List.lookup "_id" (applySet storedWidget d) = List.lookup "_id" storedWidget) ∧
      (bodyHas "name" priceBody = false →
        List.lookup "name" (applySet storedWidget d) = List.lookup "name" storedWidget) ∧
      (bodyHas "price" priceBody = false →
        List.lookup "price" (applySet storedWidget d) = List.lookup "price" storedWidget) :=
  ⟨rfl, by decide, by decide,
    updateItem_sets_only_present_fields busyCollection "a1" priceBody storedWidget rfl⟩

/-- C10: in the `$set` document that `updateItem` builds from a decoded item the
key `name` occurs iff `Name` is not the empty string, `price` iff `Price` is not
0, and `_id` iff `ID` is not the empty string; the bodies `{"price": 0}` and
`{"name": ""}` give the same update as the body `{}`, an empty `$set`, which
leaves a stored document as it is. -/
theorem updateItem_zero_fields_not_written (collection : Collection) (id : String)
    (body : Option JSON) (stored : BDoc)
    (hdec : (Decode body Item.zero).2 = none) :
    (∃ d : BDoc,
      (updateItem collection id body).calls = [Call.UpdateOne (idFilter id) [("$set", d)]] ∧
      ("name" ∈ d.keys ↔ (Decode body Item.zero).1.Name ≠ "") ∧
      ("price" ∈ d.keys ↔ (Decode body Item.zero).1.Price.eqZero = false) ∧
      ("_id" ∈ d.keys ↔ (Decode body Item.zero).1.ID ≠ "")) ∧
    (updateItem collection id zeroPriceBody).calls
      = (updateItem collection id emptyObjectBody).calls ∧
    (updateItem collection id emptyNameBody).calls
      = (updateItem collection id emptyObjectBody).calls ∧
    (updateItem collection id emptyObjectBody).calls
      = [Call.UpdateOne (idFilter id) [("$set", [])]] ∧
    applySet stored [] = stored := by
  have hk := marshalItem_keys (Decode body Item.zero).1
  have hz : marshalItem (Decode zeroPriceBody Item.zero).1 = [] := by decide
  have hn : marshalItem (Decode emptyNameBody Item.zero).1 = [] := by decide
  have he : marshalItem (Decode emptyObjectBody Item.zero).1 = [] := by decide
  refine ⟨⟨marshalItem (Decode body Item.zero).1, updateItem_calls collection id body hdec,
    hk.2.1, hk.2.2.1, hk.1⟩, ?_, ?_, ?_, rfl⟩
  · rw [updateItem_calls collection id zeroPriceBody rfl,
      updateItem_calls collection id emptyObjectBody rfl, hz, he]
  · rw [updateItem_calls collection id emptyNameBody rfl,
      updateItem_calls collection id emptyObjectBody rfl, hn, he]
  · rw [updateItem_calls collection id emptyObjectBody rfl, he]

/-- Instance of C10: a body with all three fields set writes all three, the body `{"price": 0}` writes none. -/
theorem updateItem_zero_fields_not_written_witness :
    (Decode widgetBodyWithId Item.zero).2 = none ∧
    (updateItem unchangedCollection "a1" widgetBodyWithId).calls
      = [Call.UpdateOne [("_id", BValue.string "a1")]
          [("$set", [("_id", BValue.string "abc"), ("name", BValue.string "Widget"),
            ("price", BValue.double { bits := 0x4029000000000000 })])]] ∧
    (updateItem unchangedCollection "a1" zeroPriceBody).calls
      = [Call.UpdateOne [("_id", BValue.string "a1")] [("$set", [])]] ∧
    (updateItem unchangedCollection "a1" zeroPriceBody).calls
      = (updateItem unchangedCollection "a1" emptyObjectBody).calls :=
  ⟨rfl, by decide, by decide,
    (updateItem_zero_fields_not_written unchangedCollection "a1" widgetBodyWithId
      storedWidget rfl).2.1⟩

end GoMongoClient
